import Mathlib

/-!
Shallow embedding of `src/components/workspace/Workspace.js`: the
asynchronous multi-file compilation coordinator of the live-coding
workspace.  JS strings are modelled as lists of characters; the plain JS
objects used as string-to-string maps (`playerCache`, `transpilerCache`,
`codeCache`, `files`) are modelled as association lists with
overwrite-on-assignment semantics.
-/

/-- A JavaScript string, modelled as its list of characters. -/
abbrev JStr := List Char

/-- A JS object used as a string-to-string map, as an association list. -/
abbrev JObj := List (JStr × JStr)

/-- Property read `m[k]`: `some v` when the key is present, `none` when the
property is absent (JS `undefined`). -/
def objGet (m : JObj) (k : JStr) : Option JStr :=
  match m with
  | [] => none
  | (k', v) :: rest => if k' = k then some v else objGet rest k

/-- Property write `m[k] = v` (also the object spread with an overriding
computed key): overwrites the value when the key is present, appends the
binding otherwise. -/
def objSet (m : JObj) (k : JStr) (v : JStr) : JObj :=
  match m with
  | [] => [(k, v)]
  | (k', v') :: rest => if k' = k then (k, v) :: rest else (k', v') :: objSet rest k v

/-- `Object.keys(m)`. -/
def objKeys (m : JObj) : List JStr := m.map Prod.fst

/-- JS truthiness of the property read `m[k]`: an absent key gives
`undefined` (falsy) and the empty string is falsy, so `m[k]` is truthy
exactly when the key is present with a non-empty value. -/
def truthy (m : JObj) (k : JStr) : Bool :=
  match objGet m k with
  | none => false
  | some v => !v.isEmpty

/-- The reserved marker string `'@babel-'` (the source constant named
transpiler-marker at `Workspace.js:21`) used to encode a Preview-variant
compile key on the wire. -/
def transpilerMarker : JStr := "@babel-".toList

/-- `getTranspilerId` (`Workspace.js:22`): encode a filename as a
Preview-variant (transpiler) compile key by prepending the marker. -/
def getTranspilerId (filename : JStr) : JStr := transpilerMarker ++ filename

/-- `isTranspilerId` (`Workspace.js:23`): `filename.indexOf(marker) === 0`,
i.e. the filename starts with the reserved marker. -/
def isTranspilerId (filename : JStr) : Bool := transpilerMarker.isPrefixOf filename

/-- Modelled from the spec: the decoding direction of the Preview-key
convention is not in `src/` (the source keeps the encoded key everywhere);
section 6 of the spec says the real filename is recovered by stripping
that exact marker string from the front. -/
def stripTranspilerId (filename : JStr) : JStr := filename.drop transpilerMarker.length

/-- The parsed error shape `{summary, description, lineNumber}` produced by
the external error-message utility. -/
structure ErrorDetails where
  summary : JStr
  description : JStr
  lineNumber : Nat
deriving DecidableEq, Repr

/-- Modelled from the spec: `getErrorDetails` lives in
`utils/ErrorMessage`, outside `src/`; it decomposes a free-text compiler or
runtime message into `{summary, description, lineNumber}`.  The claims only
depend on it returning some parsed value, so the decomposition itself is
kept trivial. -/
def getErrorDetails (message : JStr) : ErrorDetails :=
  { summary := message, description := message, lineNumber := 0 }

/-- A compile request posted to the babel worker: `{filename, code, options}`
where the only option used is `retainLines` (present and true exactly for
Execution-variant requests). -/
structure CompileRequest where
  filename : JStr
  code : JStr
  retainLines : Bool
deriving DecidableEq, Repr

/-- A decoded babel-worker response `JSON.parse(data)`:
`{filename, type, code, error}` with `type` one of the strings `'code'` and
`'error'`, and `error.message` carried as `errorMessage`. -/
structure WorkerResponse where
  filename : JStr
  rtype : JStr
  code : JStr
  errorMessage : JStr
deriving DecidableEq, Repr

/-- The props consumed by the coordinator: the declared file set
(filename to initial source text) and the entry filename. -/
structure WorkspaceProps where
  files : JObj
  entry : JStr
deriving DecidableEq, Repr

/-- The mutable state of the Workspace component: the React state fields
(`compilerError`, `runtimeError`, `showDetails`, `activeTab`,
`transpilerCache`, `transpilerVisible`, `playerVisible`) together with the
instance fields `codeCache` and `playerCache`. -/
structure WorkspaceState where
  compilerError : Option ErrorDetails
  runtimeError : Option ErrorDetails
  showDetails : Bool
  activeTab : JStr
  transpilerCache : JObj
  transpilerVisible : Bool
  playerVisible : Bool
  codeCache : JObj
  playerCache : JObj
deriving DecidableEq, Repr

/-- The constructor (`Workspace.js:98-117`): errors cleared, details hidden,
both caches empty, pane visibility from the `panes` prop. -/
def initialState (initialTab : JStr) (transpilerVisible playerVisible : Bool) :
    WorkspaceState :=
  { compilerError := none
    runtimeError := none
    showDetails := false
    activeTab := initialTab
    transpilerCache := []
    transpilerVisible := transpilerVisible
    playerVisible := playerVisible
    codeCache := []
    playerCache := [] }

/-- `updateStatus` (`Workspace.js:187-201`): on a `'code'` response clear
the compiler error and hide details; on an `'error'` response parse the
message into `compilerError` (leaving `showDetails` untouched); any other
tag falls through the switch unchanged. -/
def updateStatus (s : WorkspaceState) (ty : JStr) (errorMessage : JStr) :
    WorkspaceState :=
  if ty = "code".toList then
    { s with compilerError := none, showDetails := false }
  else if ty = "error".toList then
    { s with compilerError := some (getErrorDetails errorMessage) }
  else s

/-- `runApplication` (`Workspace.js:152-158`): unconditionally invoke the
sandbox run with the whole `playerCache` and the entry filename.  The pair
returned is the argument list of `player.runApplication`. -/
def runApplication (props : WorkspaceProps) (s : WorkspaceState) : JObj × JStr :=
  (s.playerCache, props.entry)

/-- `onBabelWorkerMessage` (`Workspace.js:160-185`): decode the response,
update error status, then on a `'code'` response either write the
transpiler (Preview) cache, or write the player (Execution) cache and — when
every declared file now has truthy cached code — trigger a run.  The second
component is `some` of the run-call arguments exactly when
`player.runApplication` was invoked during the step. -/
def onBabelWorkerMessage (props : WorkspaceProps) (s : WorkspaceState)
    (r : WorkerResponse) : WorkspaceState × Option (JObj × JStr) :=
  let s1 := updateStatus s r.rtype r.errorMessage
  if r.rtype = "code".toList then
    if isTranspilerId r.filename then
      ({ s1 with transpilerCache := objSet s1.transpilerCache r.filename r.code }, none)
    else
      let pc := objSet s1.playerCache r.filename r.code
      let s2 := { s1 with playerCache := pc }
      if (objKeys props.files).all (fun f => truthy pc f) then
        (s2, some (runApplication props s2))
      else
        (s2, none)
  else
    (s1, none)

/-- `onCodeChange` (`Workspace.js:203-223`): post an Execution-variant
request when the player pane is visible and a Preview-variant request when
the transpiler pane is visible, then record the new text in `codeCache`.
The requests posted are returned alongside the new state. -/
def onCodeChange (s : WorkspaceState) (code : JStr) :
    WorkspaceState × List CompileRequest :=
  let reqs :=
    (if s.playerVisible then [⟨s.activeTab, code, true⟩] else []) ++
    (if s.transpilerVisible then [⟨getTranspilerId s.activeTab, code, false⟩] else [])
  ({ s with codeCache := objSet s.codeCache s.activeTab code }, reqs)

/-- `onToggleDetails` (`Workspace.js:225-227`). -/
def onToggleDetails (s : WorkspaceState) (showDetails : Bool) : WorkspaceState :=
  { s with showDetails := showDetails }

/-- `onPlayerRun` (`Workspace.js:229-231`): an execution start clears the
runtime error. -/
def onPlayerRun (s : WorkspaceState) : WorkspaceState :=
  { s with runtimeError := none }

/-- `onPlayerError` (`Workspace.js:235-237`). -/
def onPlayerError (s : WorkspaceState) (message : JStr) : WorkspaceState :=
  { s with runtimeError := some (getErrorDetails message) }

/-- The readiness predicate of `Workspace.js:180`:
`Object.keys(files).every(filename => playerCache[filename])`. -/
def ready (props : WorkspaceProps) (pc : JObj) : Bool :=
  (objKeys props.files).all (fun f => truthy pc f)

-- Concrete fixtures used by counterexamples and witnesses.

/-- A single-file workspace: file set `{a}` with entry `a`. -/
def exProps : WorkspaceProps := ⟨[("a".toList, "1".toList)], "a".toList⟩

/-- A two-file workspace: file set `{a, b}` with entry `a`. -/
def exPropsAB : WorkspaceProps :=
  ⟨[("a".toList, "1".toList), ("b".toList, "2".toList)], "a".toList⟩

/-- The freshly constructed state with active tab `a` and both panes open. -/
def exState0 : WorkspaceState := initialState "a".toList true true

/-- A state in which the user has opened the details overlay. -/
def exStateDetails : WorkspaceState := { exState0 with showDetails := true }

/-- A state holding a previous compiler error and a fully compiled cache
for the single-file workspace. -/
def exStateErr : WorkspaceState :=
  { exState0 with
      compilerError := some (getErrorDetails "old".toList)
      playerCache := [("a".toList, "1".toList)] }

-- Basic lemmas about the object model.

theorem objGet_objSet_self (m : JObj) (k : JStr) (v : JStr) :
    objGet (objSet m k v) k = some v := by
  induction m with
  | nil => simp [objGet, objSet]
  | cons hd tl ih =>
    obtain ⟨k', v'⟩ := hd
    by_cases h : k' = k
    · simp [objGet, objSet, h]
    · simp [objGet, objSet, h, ih]

@[simp]
theorem updateStatus_playerCache (s : WorkspaceState) (ty m : JStr) :
    (updateStatus s ty m).playerCache = s.playerCache := by
  unfold updateStatus
  split <;> [rfl; split <;> rfl]

@[simp]
theorem updateStatus_transpilerCache (s : WorkspaceState) (ty m : JStr) :
    (updateStatus s ty m).transpilerCache = s.transpilerCache := by
  unfold updateStatus
  split <;> [rfl; split <;> rfl]

-- Characterizations of a single `onBabelWorkerMessage` step, one per branch
-- of the handler.

theorem step_failure (props : WorkspaceProps) (s : WorkspaceState)
    (r : WorkerResponse) (h : r.rtype = "error".toList) :
    onBabelWorkerMessage props s r =
      ({ s with compilerError := some (getErrorDetails r.errorMessage) }, none) := by
  have hne : r.rtype ≠ "code".toList := by
    rw [h]; decide
  simp only [onBabelWorkerMessage, updateStatus, if_neg hne, if_pos h]

theorem step_other (props : WorkspaceProps) (s : WorkspaceState)
    (r : WorkerResponse) (hc : r.rtype ≠ "code".toList)
    (he : r.rtype ≠ "error".toList) :
    onBabelWorkerMessage props s r = (s, none) := by
  simp only [onBabelWorkerMessage, updateStatus, if_neg hc, if_neg he]

theorem step_preview (props : WorkspaceProps) (s : WorkspaceState)
    (r : WorkerResponse) (hc : r.rtype = "code".toList)
    (ht : isTranspilerId r.filename = true) :
    onBabelWorkerMessage props s r =
      ({ s with compilerError := none, showDetails := false,
                transpilerCache := objSet s.transpilerCache r.filename r.code },
       none) := by
  simp only [onBabelWorkerMessage, updateStatus, if_pos hc, if_pos ht]

theorem step_exec (props : WorkspaceProps) (s : WorkspaceState)
    (r : WorkerResponse) (hc : r.rtype = "code".toList)
    (ht : isTranspilerId r.filename = false) :
    onBabelWorkerMessage props s r =
      ({ s with compilerError := none, showDetails := false,
                playerCache := objSet s.playerCache r.filename r.code },
       if ready props (objSet s.playerCache r.filename r.code) then
         some (objSet s.playerCache r.filename r.code, props.entry)
       else none) := by
  have htn : ¬ (isTranspilerId r.filename = true) := by
    rw [ht]; decide
  simp only [onBabelWorkerMessage, updateStatus, runApplication, ready,
    if_pos hc, if_neg htn]
  split <;> rfl

-- Claim theorems.

/-- Claim C4: the Preview-key encoding is a reversible, collision-free
round trip — for every filename not containing the reserved marker,
stripping the marker from the encoded key recovers the filename exactly,
the encoded key is always classified as a Preview (transpiler) key, and
the real filename is never classified as one. -/
theorem transpilerId_roundtrip_separation (f : JStr)
    (h : ¬ transpilerMarker <:+: f) :
    stripTranspilerId (getTranspilerId f) = f ∧
    isTranspilerId (getTranspilerId f) = true ∧
    isTranspilerId f = false := by
  refine ⟨?_, ?_, ?_⟩
  · simp [stripTranspilerId, getTranspilerId, List.drop_left]
  · simp [isTranspilerId, getTranspilerId, List.isPrefixOf_iff_prefix]
  · simp only [isTranspilerId]
    rw [Bool.eq_false_iff]
    intro hb
    exact h (List.IsPrefix.isInfix (List.isPrefixOf_iff_prefix.mp hb))

theorem transpilerId_roundtrip_separation_witness :
    (¬ transpilerMarker <:+: "index.js".toList) ∧
    (stripTranspilerId (getTranspilerId "index.js".toList) = "index.js".toList ∧
     isTranspilerId (getTranspilerId "index.js".toList) = true ∧
     isTranspilerId "index.js".toList = false) :=
  ⟨by decide, transpilerId_roundtrip_separation "index.js".toList (by decide)⟩

/-- Claim C6: a failure (type `'error'`) response leaves both caches
unchanged and triggers no run; it only raises the compiler-error flag. -/
theorem failure_response_leaves_caches_unchanged (props : WorkspaceProps)
    (s : WorkspaceState) (r : WorkerResponse) (h : r.rtype = "error".toList) :
    (onBabelWorkerMessage props s r).1.playerCache = s.playerCache ∧
    (onBabelWorkerMessage props s r).1.transpilerCache = s.transpilerCache ∧
    (onBabelWorkerMessage props s r).1.compilerError =
      some (getErrorDetails r.errorMessage) ∧
    (onBabelWorkerMessage props s r).2 = none := by
  rw [step_failure props s r h]
  exact ⟨rfl, rfl, rfl, rfl⟩

theorem failure_response_leaves_caches_unchanged_witness :
    (onBabelWorkerMessage exProps exStateErr
        ⟨"a".toList, "error".toList, [], "boom".toList⟩).1.playerCache =
      exStateErr.playerCache ∧
    (onBabelWorkerMessage exProps exStateErr
        ⟨"a".toList, "error".toList, [], "boom".toList⟩).1.transpilerCache =
      exStateErr.transpilerCache ∧
    (onBabelWorkerMessage exProps exStateErr
        ⟨"a".toList, "error".toList, [], "boom".toList⟩).1.compilerError =
      some (getErrorDetails "boom".toList) ∧
    (onBabelWorkerMessage exProps exStateErr
        ⟨"a".toList, "error".toList, [], "boom".toList⟩).2 = none :=
  failure_response_leaves_caches_unchanged exProps exStateErr
    ⟨"a".toList, "error".toList, [], "boom".toList⟩ (by decide)

/-- Claim C8: cache writes are unconditional last-writer-wins — after two
successful responses for the same compile key, delivered in either order,
the cache for that key holds the code of the response delivered second;
no ordering token or staleness guard exists. -/
theorem same_key_last_writer_wins (props : WorkspaceProps) (s : WorkspaceState)
    (f c1 c2 e1 e2 : JStr) :
    (if isTranspilerId f then
       objGet (onBabelWorkerMessage props
         (onBabelWorkerMessage props s ⟨f, "code".toList, c1, e1⟩).1
         ⟨f, "code".toList, c2, e2⟩).1.transpilerCache f
     else
       objGet (onBabelWorkerMessage props
         (onBabelWorkerMessage props s ⟨f, "code".toList, c1, e1⟩).1
         ⟨f, "code".toList, c2, e2⟩).1.playerCache f) = some c2 := by
  by_cases ht : isTranspilerId f = true
  · rw [if_pos ht, step_preview props s ⟨f, "code".toList, c1, e1⟩ rfl ht,
      step_preview props _ ⟨f, "code".toList, c2, e2⟩ rfl ht]
    simp [objGet_objSet_self]
  · have ht' : isTranspilerId f = false := by
      rwa [Bool.not_eq_true] at ht
    rw [if_neg ht, step_exec props s ⟨f, "code".toList, c1, e1⟩ rfl ht',
      step_exec props _ ⟨f, "code".toList, c2, e2⟩ rfl ht']
    simp [objGet_objSet_self]

/-- Claim C3: a response whose decoded key is the Preview variant writes
only the Preview (transpiler) cache — the Execution cache is untouched, the
readiness condition is unchanged, and no run is triggered; on success the
Preview cache gains the entry, on any other type no cache changes at all. -/
theorem preview_response_touches_only_preview_cache (props : WorkspaceProps)
    (s : WorkspaceState) (r : WorkerResponse)
    (ht : isTranspilerId r.filename = true) :
    (onBabelWorkerMessage props s r).1.playerCache = s.playerCache ∧
    (onBabelWorkerMessage props s r).2 = none ∧
    ready props (onBabelWorkerMessage props s r).1.playerCache =
      ready props s.playerCache ∧
    (r.rtype = "code".toList →
      (onBabelWorkerMessage props s r).1.transpilerCache =
        objSet s.transpilerCache r.filename r.code) ∧
    (r.rtype ≠ "code".toList →
      (onBabelWorkerMessage props s r).1.transpilerCache =
        s.transpilerCache) := by
  by_cases hc : r.rtype = "code".toList
  · rw [step_preview props s r hc ht]
    exact ⟨rfl, rfl, rfl, fun _ => rfl, fun hn => absurd hc hn⟩
  · by_cases he : r.rtype = "error".toList
    · rw [step_failure props s r he]
      exact ⟨rfl, rfl, rfl, fun hy => absurd hy hc, fun _ => rfl⟩
    · rw [step_other props s r hc he]
      exact ⟨rfl, rfl, rfl, fun hy => absurd hy hc, fun _ => rfl⟩

theorem preview_response_touches_only_preview_cache_witness :
    (onBabelWorkerMessage exProps exState0
        ⟨"@babel-a".toList, "code".toList, "t".toList, []⟩).1.playerCache =
      exState0.playerCache ∧
    (onBabelWorkerMessage exProps exState0
        ⟨"@babel-a".toList, "code".toList, "t".toList, []⟩).2 = none ∧
    ready exProps (onBabelWorkerMessage exProps exState0
        ⟨"@babel-a".toList, "code".toList, "t".toList, []⟩).1.playerCache =
      ready exProps exState0.playerCache ∧
    (("@babel-a".toList : JStr) = "@babel-a".toList →
      (onBabelWorkerMessage exProps exState0
          ⟨"@babel-a".toList, "code".toList, "t".toList, []⟩).1.transpilerCache =
        objSet exState0.transpilerCache "@babel-a".toList "t".toList) ∧
    (("@babel-a".toList : JStr) ≠ "@babel-a".toList →
      (onBabelWorkerMessage exProps exState0
          ⟨"@babel-a".toList, "code".toList, "t".toList, []⟩).1.transpilerCache =
        exState0.transpilerCache) := by
  have h := preview_response_touches_only_preview_cache exProps exState0
    ⟨"@babel-a".toList, "code".toList, "t".toList, []⟩ (by decide)
  exact ⟨h.1, h.2.1, h.2.2.1, fun _ => h.2.2.2.1 rfl, fun hn => absurd rfl hn⟩

-- Further shared helpers about run payloads and readiness.

theorem isSome_of_truthy (m : JObj) (k : JStr) (h : truthy m k = true) :
    (objGet m k).isSome = true := by
  unfold truthy at h
  cases hg : objGet m k with
  | none => rw [hg] at h; exact absurd h (by decide)
  | some v => rfl

theorem step_run_some (props : WorkspaceProps) (s : WorkspaceState)
    (r : WorkerResponse) (m : JObj) (e : JStr)
    (h : (onBabelWorkerMessage props s r).2 = some (m, e)) :
    m = (onBabelWorkerMessage props s r).1.playerCache ∧
    e = props.entry ∧ ready props m = true := by
  by_cases hc : r.rtype = "code".toList
  · by_cases ht : isTranspilerId r.filename = true
    · rw [step_preview props s r hc ht] at h
      simp at h
    · have ht' : isTranspilerId r.filename = false := by
        rwa [Bool.not_eq_true] at ht
      rw [step_exec props s r hc ht'] at h ⊢
      by_cases hr : ready props (objSet s.playerCache r.filename r.code) = true
      · rw [if_pos hr] at h
        have h' : (objSet s.playerCache r.filename r.code, props.entry) = (m, e) :=
          Option.some.inj h
        injection h' with hm he2
        subst hm
        subst he2
        exact ⟨rfl, rfl, hr⟩
      · rw [if_neg hr] at h
        simp at h
  · by_cases he : r.rtype = "error".toList
    · rw [step_failure props s r he] at h
      simp at h
    · rw [step_other props s r hc he] at h
      simp at h

/-- Claim C1 (amended): whenever the run trigger fires, the compiled map
handed to the sandbox is the whole `playerCache` after the write — every
filename in the declared file set has a truthy entry in it and the entry
filename is passed along — but its key set can strictly contain the
declared file set: keys of files not (or no longer) in the set are not
filtered out. -/
theorem run_map_is_whole_playerCache (props : WorkspaceProps)
    (s : WorkspaceState) (r : WorkerResponse) (m : JObj) (e : JStr)
    (h : (onBabelWorkerMessage props s r).2 = some (m, e)) :
    m = (onBabelWorkerMessage props s r).1.playerCache ∧
    e = props.entry ∧ ready props m = true :=
  step_run_some props s r m e h

theorem run_map_is_whole_playerCache_witness :
    ([("a".toList, "z".toList)] : JObj) =
      (onBabelWorkerMessage exProps exState0
        ⟨"a".toList, "code".toList, "z".toList, []⟩).1.playerCache ∧
    ("a".toList : JStr) = exProps.entry ∧
    ready exProps [("a".toList, "z".toList)] = true :=
  run_map_is_whole_playerCache exProps exState0
    ⟨"a".toList, "code".toList, "z".toList, []⟩
    [("a".toList, "z".toList)] "a".toList (by decide)

theorem run_map_keyset_superset_cex :
    (onBabelWorkerMessage exProps
        (onBabelWorkerMessage exPropsAB exState0
          ⟨"b".toList, "code".toList, "y".toList, []⟩).1
        ⟨"a".toList, "code".toList, "z".toList, []⟩).2 =
      some ([("b".toList, "y".toList), ("a".toList, "z".toList)], "a".toList) ∧
    objKeys [("b".toList, "y".toList), ("a".toList, "z".toList)] ≠
      objKeys exProps.files := by
  refine ⟨by decide, by decide⟩

/-- Claim C2 (amended): for every Execution-variant success response, a run
is triggered exactly when, after the cache write, every filename in the
declared file set has a truthy (present and non-empty) Execution cache
entry — unconditionally, on every such response, including responses caused
by edits to a file set that was already fully compiled. -/
theorem exec_success_run_iff_all_truthy (props : WorkspaceProps)
    (s : WorkspaceState) (r : WorkerResponse)
    (hc : r.rtype = "code".toList) (ht : isTranspilerId r.filename = false) :
    ((onBabelWorkerMessage props s r).2).isSome =
      ready props (objSet s.playerCache r.filename r.code) := by
  rw [step_exec props s r hc ht]
  by_cases hr : ready props (objSet s.playerCache r.filename r.code) = true
  · rw [if_pos hr, hr]
    rfl
  · have hr' : ready props (objSet s.playerCache r.filename r.code) = false :=
      Bool.eq_false_iff.mpr hr
    rw [if_neg hr, hr']
    rfl

theorem exec_success_run_iff_all_truthy_witness :
    ((onBabelWorkerMessage exProps exStateErr
        ⟨"a".toList, "code".toList, "z".toList, []⟩).2).isSome =
      ready exProps (objSet exStateErr.playerCache "a".toList "z".toList) ∧
    ready exProps (objSet exStateErr.playerCache "a".toList "z".toList) = true :=
  ⟨exec_success_run_iff_all_truthy exProps exStateErr
    ⟨"a".toList, "code".toList, "z".toList, []⟩ (by decide) (by decide),
   by decide⟩

theorem present_but_empty_entry_no_run_cex :
    (objGet (onBabelWorkerMessage exProps exState0
        ⟨"a".toList, "code".toList, [], []⟩).1.playerCache "a".toList).isSome =
      true ∧
    objKeys exProps.files = ["a".toList] ∧
    (onBabelWorkerMessage exProps exState0
        ⟨"a".toList, "code".toList, [], []⟩).2 = none := by
  refine ⟨by decide, by decide, by decide⟩

/-- Claim C5 (amended): a compile failure response for any file sets
`compilerError` to a non-none parsed value and leaves `showDetails`
unchanged (in particular it does not force it to false); a subsequent
successful response, for any file and either variant, clears
`compilerError` and sets `showDetails` to false. -/
theorem compile_failure_then_success_error_state (props : WorkspaceProps)
    (s : WorkspaceState) (r1 r2 : WorkerResponse)
    (h1 : r1.rtype = "error".toList) (h2 : r2.rtype = "code".toList) :
    (onBabelWorkerMessage props s r1).1.compilerError =
      some (getErrorDetails r1.errorMessage) ∧
    (onBabelWorkerMessage props s r1).1.showDetails = s.showDetails ∧
    (onBabelWorkerMessage props
        (onBabelWorkerMessage props s r1).1 r2).1.compilerError = none ∧
    (onBabelWorkerMessage props
        (onBabelWorkerMessage props s r1).1 r2).1.showDetails = false := by
  rw [step_failure props s r1 h1]
  refine ⟨rfl, rfl, ?_, ?_⟩ <;>
  · by_cases ht : isTranspilerId r2.filename = true
    · rw [step_preview props _ r2 h2 ht]
    · have ht' : isTranspilerId r2.filename = false := by
        rwa [Bool.not_eq_true] at ht
      rw [step_exec props _ r2 h2 ht']

theorem compile_failure_then_success_error_state_witness :
    (onBabelWorkerMessage exProps exStateDetails
        ⟨"a".toList, "error".toList, [], "bad".toList⟩).1.compilerError =
      some (getErrorDetails "bad".toList) ∧
    (onBabelWorkerMessage exProps exStateDetails
        ⟨"a".toList, "error".toList, [], "bad".toList⟩).1.showDetails =
      exStateDetails.showDetails ∧
    (onBabelWorkerMessage exProps
        (onBabelWorkerMessage exProps exStateDetails
          ⟨"a".toList, "error".toList, [], "bad".toList⟩).1
        ⟨"a".toList, "code".toList, "z".toList, []⟩).1.compilerError = none ∧
    (onBabelWorkerMessage exProps
        (onBabelWorkerMessage exProps exStateDetails
          ⟨"a".toList, "error".toList, [], "bad".toList⟩).1
        ⟨"a".toList, "code".toList, "z".toList, []⟩).1.showDetails = false :=
  compile_failure_then_success_error_state exProps exStateDetails
    ⟨"a".toList, "error".toList, [], "bad".toList⟩
    ⟨"a".toList, "code".toList, "z".toList, []⟩ (by decide) (by decide)

theorem failure_keeps_showDetails_cex :
    (onBabelWorkerMessage exProps exStateDetails
        ⟨"a".toList, "error".toList, [], "bad".toList⟩).1.compilerError =
      some (getErrorDetails "bad".toList) ∧
    (onBabelWorkerMessage exProps exStateDetails
        ⟨"a".toList, "error".toList, [], "bad".toList⟩).1.showDetails = true := by
  refine ⟨by decide, by decide⟩

/-- Claim C7 (amended): the manual re-run operation (`runApplication`)
performs no readiness check of its own — it always invokes the sandbox run
with the current `playerCache` and entry filename, complete or not; the
readiness guard sits only at its call site in the worker message handler,
where the sandbox is invoked only with a map holding a present entry for
every filename in the declared file set (hence, when the entry filename is
in the file set, for the entry too). -/
theorem runApplication_unguarded_message_path_guarded (props : WorkspaceProps)
    (s : WorkspaceState) (r : WorkerResponse) (m : JObj) (e : JStr)
    (hE : props.entry ∈ objKeys props.files)
    (h : (onBabelWorkerMessage props s r).2 = some (m, e)) :
    runApplication props s = (s.playerCache, props.entry) ∧
    (objKeys props.files).all (fun f => (objGet m f).isSome) = true ∧
    (objGet m props.entry).isSome = true ∧
    e = props.entry := by
  obtain ⟨hm, he2, hready⟩ := step_run_some props s r m e h
  unfold ready at hready
  rw [List.all_eq_true] at hready
  have hall : (objKeys props.files).all (fun f => (objGet m f).isSome) = true := by
    rw [List.all_eq_true]
    intro f hf
    exact isSome_of_truthy m f (hready f hf)
  refine ⟨rfl, hall, ?_, he2⟩
  exact isSome_of_truthy m props.entry (hready props.entry hE)

theorem runApplication_unguarded_message_path_guarded_witness :
    runApplication exProps exState0 = (exState0.playerCache, exProps.entry) ∧
    (objKeys exProps.files).all
      (fun f => (objGet [("a".toList, "z".toList)] f).isSome) = true ∧
    (objGet [("a".toList, "z".toList)] exProps.entry).isSome = true ∧
    ("a".toList : JStr) = exProps.entry :=
  runApplication_unguarded_message_path_guarded exProps exState0
    ⟨"a".toList, "code".toList, "z".toList, []⟩
    [("a".toList, "z".toList)] "a".toList (by decide) (by decide)

theorem manual_rerun_incomplete_cache_runs_cex :
    runApplication exProps exState0 = ([], "a".toList) ∧
    ready exProps exState0.playerCache = false ∧
    objGet exState0.playerCache "a".toList = none := by
  refine ⟨by decide, by decide, by decide⟩

/-- Claim C9 (amended): a success response whose decoded key does not match
any filename in the declared file set is not dropped — it is handled like
any other Execution-variant success: the compiler error is cleared, the
cache entry for the unknown key is written, and a run is triggered exactly
when the file set is truthy-covered after the write; the coordinator does
not crash. -/
theorem unknown_filename_processed_not_dropped (props : WorkspaceProps)
    (s : WorkspaceState) (r : WorkerResponse)
    (hc : r.rtype = "code".toList) (ht : isTranspilerId r.filename = false)
    (_hf : r.filename ∉ objKeys props.files) :
    (onBabelWorkerMessage props s r).1.playerCache =
      objSet s.playerCache r.filename r.code ∧
    objGet (onBabelWorkerMessage props s r).1.playerCache r.filename =
      some r.code ∧
    (onBabelWorkerMessage props s r).1.compilerError = none ∧
    ((onBabelWorkerMessage props s r).2).isSome =
      ready props (objSet s.playerCache r.filename r.code) := by
  rw [step_exec props s r hc ht]
  refine ⟨rfl, objGet_objSet_self _ _ _, rfl, ?_⟩
  by_cases hr : ready props (objSet s.playerCache r.filename r.code) = true
  · rw [if_pos hr, hr]
    rfl
  · have hr' : ready props (objSet s.playerCache r.filename r.code) = false :=
      Bool.eq_false_iff.mpr hr
    rw [if_neg hr, hr']
    rfl

theorem unknown_filename_processed_not_dropped_witness :
    (onBabelWorkerMessage exProps exStateErr
        ⟨"b".toList, "code".toList, "y".toList, []⟩).1.playerCache =
      objSet exStateErr.playerCache "b".toList "y".toList ∧
    objGet (onBabelWorkerMessage exProps exStateErr
        ⟨"b".toList, "code".toList, "y".toList, []⟩).1.playerCache "b".toList =
      some "y".toList ∧
    (onBabelWorkerMessage exProps exStateErr
        ⟨"b".toList, "code".toList, "y".toList, []⟩).1.compilerError = none ∧
    ((onBabelWorkerMessage exProps exStateErr
        ⟨"b".toList, "code".toList, "y".toList, []⟩).2).isSome =
      ready exProps (objSet exStateErr.playerCache "b".toList "y".toList) :=
  unknown_filename_processed_not_dropped exProps exStateErr
    ⟨"b".toList, "code".toList, "y".toList, []⟩ (by decide) (by decide) (by decide)

theorem unknown_filename_response_effects_cex :
    (onBabelWorkerMessage exProps exStateErr
        ⟨"b".toList, "code".toList, "y".toList, []⟩).1.playerCache ≠
      exStateErr.playerCache ∧
    (onBabelWorkerMessage exProps exStateErr
        ⟨"b".toList, "code".toList, "y".toList, []⟩).1.compilerError ≠
      exStateErr.compilerError ∧
    (onBabelWorkerMessage exProps exStateErr
        ⟨"b".toList, "code".toList, "y".toList, []⟩).2 ≠ none ∧
    ("b".toList : JStr) ∉ objKeys exProps.files := by
  refine ⟨by decide, by decide, by decide, by decide⟩

/-- Claim C10: the readiness check tests the cached string's truthiness,
not key membership — an Execution-variant success carrying empty compiled
code leaves the file with a present but falsy cache entry, so the file
counts as not yet compiled and that response triggers no run. -/
theorem empty_code_entry_present_no_run (props : WorkspaceProps)
    (s : WorkspaceState) (r : WorkerResponse)
    (hc : r.rtype = "code".toList) (ht : isTranspilerId r.filename = false)
    (he : r.code = []) (hf : r.filename ∈ objKeys props.files) :
    objGet (onBabelWorkerMessage props s r).1.playerCache r.filename =
      some [] ∧
    truthy (onBabelWorkerMessage props s r).1.playerCache r.filename = false ∧
    (onBabelWorkerMessage props s r).2 = none := by
  rw [step_exec props s r hc ht]
  have hg : objGet (objSet s.playerCache r.filename r.code) r.filename =
      some [] := by
    rw [objGet_objSet_self, he]
  have htr : truthy (objSet s.playerCache r.filename r.code) r.filename =
      false := by
    unfold truthy
    rw [hg]
    rfl
  have hready : ready props (objSet s.playerCache r.filename r.code) = false := by
    rw [Bool.eq_false_iff]
    intro hall
    unfold ready at hall
    rw [List.all_eq_true] at hall
    have h3 : truthy (objSet s.playerCache r.filename r.code) r.filename =
        true := hall r.filename hf
    rw [htr] at h3
    exact absurd h3 (by decide)
  refine ⟨hg, htr, ?_⟩
  rw [hready]
  rfl

theorem empty_code_entry_present_no_run_witness :
    objGet (onBabelWorkerMessage exProps exState0
        ⟨"a".toList, "code".toList, [], []⟩).1.playerCache "a".toList =
      some [] ∧
    truthy (onBabelWorkerMessage exProps exState0
        ⟨"a".toList, "code".toList, [], []⟩).1.playerCache "a".toList = false ∧
    (onBabelWorkerMessage exProps exState0
        ⟨"a".toList, "code".toList, [], []⟩).2 = none :=
  empty_code_entry_present_no_run exProps exState0
    ⟨"a".toList, "code".toList, [], []⟩ (by decide) (by decide) (by decide)
    (by decide)
